import Mathlib

/-!
Verification of the Boomi component exporter (src/boomi_exporter_v6.py)
against its natural-language specification.

The script is a linear pipeline: read three credentials from the
environment, page through a metadata query, and for each metadata record
fetch an XML document and write it to a sanitized file path.  The
definitions below are a shallow embedding of that pipeline.  Network and
filesystem effects are abstracted as oracles: a pagination run consumes a
list of per-call results, and the export walker consumes a per-record
environment giving the outcome of directory creation, document fetch and
file write.  Python exceptions are modelled with Except; Python dictionary
access distinguishes an absent key from a key present with value None by
using Option (Option String) fields.
-/

/-! ## Name sanitizer (sanitize_name, line 182-185)

Python: return "".join(c if c.isalnum() or c in (' ', '.', '_', '-')
else '_' for c in name).rstrip()
-/

/-- The character class kept by the sanitizer: alphanumeric, space,
period, underscore, hyphen (line 185). -/
def keepChar (c : Char) : Bool :=
  c.isAlphanum || c == ' ' || c == '.' || c == '_' || c == '-'

/-- Per-character replacement of line 185: keep chars of the class,
replace every other char with an underscore. -/
def sanitizeChar (c : Char) : Char :=
  if keepChar c then c else '_'

/-- Python str.rstrip with no argument: drop trailing whitespace. -/
def rstrip (l : List Char) : List Char :=
  (l.reverse.dropWhile Char.isWhitespace).reverse

/-- sanitize_name (line 182-185): map each character, then trim trailing
whitespace. -/
def sanitize_name (s : String) : String :=
  String.mk (rstrip (s.data.map sanitizeChar))

/-- Python raises a TypeError when sanitize_name is applied to a
non-string value such as None (the generator iterates the argument).
Arguments come from dict.get, so they are Option String: none models
Python None and raises, some s is an actual string. -/
def sanitize_name_dyn : Option String → Except String String
  | none => .error "TypeError"
  | some s => .ok (sanitize_name s)

/-! ## Target paths (main, lines 234, 247-250) -/

/-- EXPORT_DIRECTORY (line 28). -/
def EXPORT_DIRECTORY : String := "boomi_export"

/-- Python f-string rendering of the version value: a JSON number prints
as its decimal digits, an absent or null version prints as None. -/
def versionStr : Option Nat → String
  | none => "None"
  | some n => toString n

/-- file_name (line 249): f-string {sanitized_name}_v{version}_{component_id}.xml -/
def file_name (sanitized_name : String) (version : Option Nat) (component_id : String) : String :=
  sanitized_name ++ "_v" ++ versionStr version ++ "_" ++ component_id ++ ".xml"

/-- local_folder_path (line 234): os.path.join of the export root and the
sanitized folder, with posix separator.  The .replace of the path
separator is the identity here: sanitize_name never outputs a slash. -/
def local_folder_path (sanitized_folder : String) : String :=
  EXPORT_DIRECTORY ++ "/" ++ sanitized_folder

/-- The full target file path computed by main (lines 233-234, 247-250)
for a record with the given raw folder name, raw component name, version
and component id. -/
def file_path (folder_name component_name : String) (version : Option Nat)
    (component_id : String) : String :=
  local_folder_path (sanitize_name folder_name) ++ "/" ++
    file_name (sanitize_name component_name) version component_id

/-! ## JSON values and the fixed initial query payload (lines 82-100) -/

/-- The fragment of JSON needed for the query payload. -/
inductive Json where
  | str : String → Json
  | arr : List Json → Json
  | obj : List (String × Json) → Json

/-- Boolean lexicographic order on character lists, used to sort object
keys into a canonical order.  Python dict literals compare equal
regardless of key order, so two payloads denote the same JSON object
exactly when their key-sorted forms agree. -/
def charsLt : List Char → List Char → Bool
  | _, [] => false
  | [], _ :: _ => true
  | a :: as, b :: bs =>
    if a.toNat < b.toNat then true
    else if b.toNat < a.toNat then false
    else charsLt as bs

/-- Insertion into a key-sorted association list. -/
def insertByKey (p : String × Json) : List (String × Json) → List (String × Json)
  | [] => [p]
  | q :: qs => if charsLt p.1.data q.1.data then p :: q :: qs else q :: insertByKey p qs

/-- Insertion sort of object fields by key. -/
def sortByKey : List (String × Json) → List (String × Json)
  | [] => []
  | p :: ps => insertByKey p (sortByKey ps)

/-- Key-order normalisation of a JSON value, to the given depth.  The
depth argument only bounds the recursion; the payloads compared below
have depth at most 6. -/
def Json.normTo (n : Nat) (j : Json) : Json :=
  match n, j with
  | 0, j => j
  | _ + 1, .str s => .str s
  | n + 1, .arr l => .arr (l.map (Json.normTo n))
  | n + 1, .obj kvs => .obj (sortByKey (kvs.map (fun p => (p.1, Json.normTo n p.2))))

/-- initial_payload (lines 82-100), with the dict keys in source order. -/
def initial_payload : Json :=
  .obj [("QueryFilter", .obj [("expression", .obj [
    ("operator", .str "and"),
    ("nestedExpression", .arr [
      .obj [("argument", .arr [.str "false"]),
            ("operator", .str "EQUALS"),
            ("property", .str "deleted")],
      .obj [("argument", .arr [.str "true"]),
            ("operator", .str "EQUALS"),
            ("property", .str "currentVersion")]])])])]

/-- The query body exactly as written in the specification (section 6),
with the keys in the order the spec prints them.  This definition follows
the words of the spec and is compared with initial_payload, which follows
the source. -/
def spec_initial_payload : Json :=
  .obj [("QueryFilter", .obj [("expression", .obj [
    ("operator", .str "and"),
    ("nestedExpression", .arr [
      .obj [("property", .str "deleted"),
            ("operator", .str "EQUALS"),
            ("argument", .arr [.str "false"])],
      .obj [("property", .str "currentVersion"),
            ("operator", .str "EQUALS"),
            ("argument", .arr [.str "true"])]])])])]

/-! ## Component metadata records (dict rows of the query result)

dict.get is modelled field by field.  For the name and folderName keys
the walker distinguishes an absent key (the default string is used) from
a key present with JSON null (Python None reaches sanitize_name), so
those fields are Option (Option String): none is an absent key, some
none a null value, some (some s) a string value.  componentId and
version behave identically for absent and null (both are falsy / render
as None), so they are flattened to a single Option. -/
structure ComponentMeta where
  componentId : Option String
  name : Option (Option String)
  version : Option Nat
  ctype : Option String
  folderName : Option (Option String)

/-! ## Pagination driver (get_all_components, lines 69-150) -/

/-- One JSON response of the query endpoint: the optional result list
(absent models a body without a result key) and the optional
continuation token. -/
structure QueryResponse where
  result : Option (List ComponentMeta)
  queryToken : Option String

/-- A network call issued by the driver: the initial JSON query with its
payload, or a continuation call carrying the token verbatim. -/
inductive ApiCall where
  | query (payload : Json)
  | queryMore (token : String)

/-- The while loop of lines 116-147.  The first argument is the oracle of
outcomes of successive continuation calls: none is a transport error or a
non-2xx response (both break the loop, lines 129-137), some r a parsed
JSON body.  A body without a result list also breaks (lines 139-141).
Returns the accumulated records and the trace of calls issued.  When the
loop would issue a call but the oracle is exhausted, the run is outside
the modelled domain and the accumulator is returned unchanged. -/
def paginate : List (Option QueryResponse) → Option String → List ComponentMeta →
    List ComponentMeta × List ApiCall
  | _, none, acc => (acc, [])
  | [], some _, acc => (acc, [])
  | r :: rest, some tok, acc =>
    match r with
    | none => (acc, [ApiCall.queryMore tok])
    | some resp =>
      match resp.result with
      | none => (acc, [ApiCall.queryMore tok])
      | some recs =>
        let p := paginate rest resp.queryToken (acc ++ recs)
        (p.1, ApiCall.queryMore tok :: p.2)

/-- get_all_components (lines 69-150).  The first oracle entry is the
outcome of the initial query (lines 102-107): on failure or a body
without a result list the function returns the empty list; otherwise the
first page is accumulated and the token loop runs (lines 110-147).
Returns the full record list and the trace of calls issued. -/
def get_all_components (first : Option QueryResponse)
    (rest : List (Option QueryResponse)) : List ComponentMeta × List ApiCall :=
  match first with
  | none => ([], [ApiCall.query initial_payload])
  | some resp =>
    match resp.result with
    | none => ([], [ApiCall.query initial_payload])
    | some recs =>
      let p := paginate rest resp.queryToken recs
      (p.1, ApiCall.query initial_payload :: p.2)

/-! ## Export walker (main, lines 216-258) -/

/-- Effect oracle for one record of the export loop: whether directory
creation succeeds (line 237), what get_component_definition returns
(line 243; none is a failed request, some s the response text), and
whether the file write succeeds (line 252). -/
structure RecordEnv where
  mkdirOk : Bool
  fetchResult : Option String
  writeOk : Bool

/-- What happened to one record of the loop body (lines 216-258). -/
inductive ExportOutcome where
  | skippedNoId
  | dirFailed
  | fetchFailed
  | wrote (path : String) (content : String)
  | writeFailed

/-- The loop body of main for one record (lines 216-258).  Python
truthiness is modelled faithfully: a missing or empty componentId skips
the record (line 222), and an empty response text fails the component_xml
test of line 245 exactly like None.  A TypeError raised by sanitize_name
on a null folderName (line 233) or null name (line 247) propagates as an
error and is not caught anywhere in main. -/
def export_record (m : ComponentMeta) (env : RecordEnv) : Except String ExportOutcome :=
  match m.componentId with
  | none => .ok .skippedNoId
  | some cid =>
    if cid = "" then .ok .skippedNoId
    else
      match sanitize_name_dyn (m.folderName.getD (some "No Folder")) with
      | .error e => .error e
      | .ok sanitized_folder =>
        if env.mkdirOk then
          match env.fetchResult with
          | some xml =>
            if xml = "" then .ok .fetchFailed
            else
              match sanitize_name_dyn (m.name.getD (some "Unnamed Component")) with
              | .error e => .error e
              | .ok sanitized_name =>
                if env.writeOk then
                  .ok (.wrote (local_folder_path sanitized_folder ++ "/" ++
                        file_name sanitized_name m.version cid) xml)
                else .ok .writeFailed
          | none => .ok .fetchFailed
        else .ok .dirFailed

/-- The for loop of lines 216-258: records are processed strictly in
order; an uncaught exception aborts the remaining records, every other
outcome is logged and the loop continues. -/
def export_walker : List (ComponentMeta × RecordEnv) → Except String (List ExportOutcome)
  | [] => .ok []
  | (m, env) :: rest =>
    match export_record m env with
    | .error e => .error e
    | .ok o =>
      match export_walker rest with
      | .error e => .error e
      | .ok os => .ok (o :: os)

/-- The files written for one outcome: only a successful write produces a
file. -/
def writesOf : ExportOutcome → List (String × String)
  | .wrote p c => [(p, c)]
  | _ => []

/-! ## Credential check and the run skeleton (main, lines 193-212) -/

/-- The three environment variables read at lines 20-22; os.getenv yields
None for a missing variable. -/
structure EnvVars where
  BOOMI_ACCOUNT_ID : Option String
  BOOMI_USERNAME : Option String
  BOOMI_API_TOKEN : Option String

/-- Python truthiness of an optional string: None and the empty string
are falsy. -/
def truthy : Option String → Bool
  | none => false
  | some s => !(s == "")

/-- The all([...]) check of line 195. -/
def credentials_ok (e : EnvVars) : Bool :=
  truthy e.BOOMI_ACCOUNT_ID && truthy e.BOOMI_USERNAME && truthy e.BOOMI_API_TOKEN

/-- How a run of main ends: the early return of line 198, the early
return of line 212, or a full walker run. -/
inductive RunResult where
  | abortedMissingEnv
  | noComponents
  | completed (walk : Except String (List ExportOutcome))

/-- main (lines 189-260): validate credentials before anything else
(lines 195-198, returning with only a printed message), then run the
pagination driver, then the export walker.  The second component is the
trace of query calls issued; an aborted run issues none, and the walker
never runs.  (The source name main is reserved by Lean for executable
entry points, hence the suffix.) -/
def main_run (e : EnvVars) (first : Option QueryResponse)
    (rest : List (Option QueryResponse)) (envs : List RecordEnv) :
    RunResult × List ApiCall :=
  if credentials_ok e then
    let p := get_all_components first rest
    if p.1.isEmpty then (.noComponents, p.2)
    else (.completed (export_walker (p.1.zip envs)), p.2)
  else (.abortedMissingEnv, [])

/-! ## Helper lemmas -/

theorem data_append (s t : String) : (s ++ t).data = s.data ++ t.data := by
  cases s; cases t; rfl

theorem eq_of_data_eq (s t : String) (h : s.data = t.data) : s = t := by
  cases s; cases t; exact congrArg String.mk h

theorem mem_of_dropWhile {p : Char → Bool} :
    ∀ (l : List Char) (x : Char), x ∈ l.dropWhile p → x ∈ l := by
  intro l
  induction l with
  | nil => intro x h; simp at h
  | cons a t ih =>
      intro x h
      cases hp : p a with
      | true =>
          rw [List.dropWhile_cons, if_pos hp] at h
          exact List.mem_cons_of_mem a (ih x h)
      | false =>
          rw [List.dropWhile_cons, if_neg (by simp [hp])] at h
          exact h

theorem head_not_of_dropWhile {p : Char → Bool} :
    ∀ (l : List Char) (c : Char), (l.dropWhile p).head? = some c → p c = false := by
  intro l
  induction l with
  | nil => intro c h; simp [List.dropWhile] at h
  | cons a t ih =>
      intro c h
      cases hp : p a with
      | true =>
          rw [List.dropWhile_cons, if_pos hp] at h
          exact ih c h
      | false =>
          rw [List.dropWhile_cons, if_neg (by simp [hp])] at h
          simp at h
          exact h ▸ hp

theorem mem_of_takeWhile {p : Char → Bool} :
    ∀ (l : List Char) (x : Char), x ∈ l.takeWhile p → p x = true := by
  intro l
  induction l with
  | nil => intro x h; simp [List.takeWhile] at h
  | cons a t ih =>
      intro x h
      cases hp : p a with
      | true =>
          rw [List.takeWhile_cons, if_pos hp] at h
          cases h with
          | head => exact hp
          | tail _ hm => exact ih x hm
      | false =>
          rw [List.takeWhile_cons, if_neg (by simp [hp])] at h
          simp at h

theorem getLast_reverse (l : List Char) : l.reverse.getLast? = l.head? := by
  cases l with
  | nil => rfl
  | cons a t => simp [List.reverse_cons, List.getLast?_concat]

theorem dropWhile_idem (p : Char → Bool) (l : List Char) :
    List.dropWhile p (List.dropWhile p l) = List.dropWhile p l := by
  induction l with
  | nil => rfl
  | cons a t ih =>
      cases hp : p a with
      | true => simp [List.dropWhile_cons, hp, ih]
      | false => simp [List.dropWhile_cons, hp]

theorem keepChar_sanitizeChar (c : Char) : keepChar (sanitizeChar c) = true := by
  cases hk : keepChar c with
  | true => simp [sanitizeChar, hk]
  | false => simp [sanitizeChar, hk]; decide

theorem rstrip_mem (l : List Char) : ∀ x ∈ rstrip l, x ∈ l := by
  intro x hx
  rw [rstrip, List.mem_reverse] at hx
  exact List.mem_reverse.mp (mem_of_dropWhile l.reverse x hx)

theorem rstrip_getLast (l : List Char) (c : Char) :
    (rstrip l).getLast? = some c → c.isWhitespace = false := by
  intro h
  rw [rstrip, getLast_reverse] at h
  exact head_not_of_dropWhile l.reverse c h

theorem rstrip_decomp (l : List Char) :
    ∃ t, l = rstrip l ++ t ∧ t.all Char.isWhitespace = true := by
  refine ⟨(l.reverse.takeWhile Char.isWhitespace).reverse, ?_, ?_⟩
  · have h1 : l = (l.reverse.takeWhile Char.isWhitespace ++
        l.reverse.dropWhile Char.isWhitespace).reverse := by
      rw [List.takeWhile_append_dropWhile, List.reverse_reverse]
    rw [List.reverse_append] at h1
    rw [rstrip]
    exact h1
  · rw [List.all_eq_true]
    intro x hx
    rw [List.mem_reverse] at hx
    exact mem_of_takeWhile l.reverse x hx

theorem rstrip_idem (l : List Char) : rstrip (rstrip l) = rstrip l := by
  simp only [rstrip, List.reverse_reverse, dropWhile_idem]

theorem map_sanitizeChar_id (l : List Char) (h : ∀ x ∈ l, keepChar x = true) :
    l.map sanitizeChar = l := by
  induction l with
  | nil => rfl
  | cons a t ih =>
      have ha : keepChar a = true := h a (List.mem_cons_self a t)
      simp [sanitizeChar, ha]
      exact ih (fun x hx => h x (List.mem_cons_of_mem a hx))

/-! ## C4 and C5: the sanitizer -/

/-- C4: for every input string s, sanitize_name s contains only
alphanumeric characters, space, period, underscore and hyphen; it has no
trailing whitespace; and it arises from s by replacing every character
outside that class with an underscore, in place, and then removing a
trailing all-whitespace tail. -/
theorem sanitize_name_charset_and_trim (s : String) :
    ((sanitize_name s).data.all keepChar = true)
    ∧ ((sanitize_name s).data.getLast?.all (fun c => !c.isWhitespace) = true)
    ∧ ∃ t, s.data.map (fun c => if keepChar c then c else '_')
        = (sanitize_name s).data ++ t ∧ t.all Char.isWhitespace = true := by
  refine ⟨?_, ?_, ?_⟩
  · rw [List.all_eq_true]
    intro x hx
    have hx' : x ∈ s.data.map sanitizeChar := rstrip_mem _ x hx
    obtain ⟨c, _, rfl⟩ := List.mem_map.mp hx'
    exact keepChar_sanitizeChar c
  · cases hl : (sanitize_name s).data.getLast? with
    | none => rfl
    | some c =>
        have hc : c.isWhitespace = false := rstrip_getLast _ c hl
        simp [hc]
  · obtain ⟨t, h1, h2⟩ := rstrip_decomp (s.data.map sanitizeChar)
    exact ⟨t, h1, h2⟩

/-- C5: sanitize_name is idempotent.  It is also deterministic by
construction: it is a pure function of its argument, with no state. -/
theorem sanitize_name_idempotent (s : String) :
    sanitize_name (sanitize_name s) = sanitize_name s := by
  apply eq_of_data_eq
  show rstrip ((rstrip (s.data.map sanitizeChar)).map sanitizeChar)
      = rstrip (s.data.map sanitizeChar)
  rw [map_sanitizeChar_id, rstrip_idem]
  intro x hx
  obtain ⟨c, _, rfl⟩ := List.mem_map.mp (rstrip_mem _ x hx)
  exact keepChar_sanitizeChar c

/-! ## C1: uniqueness of target file paths -/

/-- C1 counterexample: the claim that distinct componentIds always give
distinct file paths fails when the ids may contain underscores.  The two
records below have the same folder, distinct sanitized names P and P_v2,
distinct versions 2 and 1, and distinct ids v1_x and x, yet both target
boomi_export/F/P_v2_v1_x.xml, so the second write would overwrite the
first. -/
theorem file_path_collision :
    ("v1_x" : String) ≠ "x"
    ∧ file_path "F" "P" (some 2) "v1_x" = file_path "F" "P_v2" (some 1) "x" := by
  constructor
  · decide
  · rfl

/-- C1 amended: for two records with the same folder and the same
sanitized name, the target file paths are distinct whenever the rendered
versions agree and the componentIds differ, or the componentIds agree
and the rendered versions differ.  In particular the Invoice Map
scenario of the spec (equal names, equal versions, ids 123 and 456)
produces two distinct files. -/
theorem file_path_distinct (folder cname : String) (v1 v2 : Option Nat)
    (id1 id2 : String)
    (h : (versionStr v1 = versionStr v2 ∧ id1 ≠ id2)
       ∨ (id1 = id2 ∧ versionStr v1 ≠ versionStr v2)) :
    file_path folder cname v1 id1 ≠ file_path folder cname v2 id2 := by
  intro heq
  have hd := congrArg String.data heq
  simp only [file_path, local_folder_path, file_name, data_append,
    List.append_assoc] at hd
  have hd1 := List.append_cancel_left hd
  have hd2 := List.append_cancel_left hd1
  have hd3 := List.append_cancel_left hd2
  have hd4 := List.append_cancel_left hd3
  have hd5 := List.append_cancel_left hd4
  have hd6 := List.append_cancel_left hd5
  rcases h with ⟨hv, hid⟩ | ⟨hid, hv⟩
  · rw [hv] at hd6
    have hd7 := List.append_cancel_left hd6
    have hd8 := List.append_cancel_left hd7
    exact hid (eq_of_data_eq _ _ (List.append_cancel_right hd8))
  · rw [hid] at hd6
    exact hv (eq_of_data_eq _ _ (List.append_cancel_right hd6))

/-- C1 amended, witness at the spec scenario: Invoice Map, ids 123 and
456, same folder and version. -/
theorem file_path_distinct_witness :
    file_path "Maps" "Invoice Map" (some 1) "123"
      ≠ file_path "Maps" "Invoice Map" (some 1) "456" :=
  file_path_distinct "Maps" "Invoice Map" (some 1) (some 1) "123" "456"
    (Or.inl ⟨rfl, by decide⟩)

/-! ## C2, C3, C8: the pagination driver -/

/-- C2: on a token sequence T1, T2, none the driver issues exactly three
calls - the initial query followed by two queryMore calls with the
tokens in order - and returns the three result lists concatenated in
their original order. -/
theorem pagination_three_pages (R1 R2 R3 : List ComponentMeta) (T1 T2 : String) :
    get_all_components (some ⟨some R1, some T1⟩)
        [some ⟨some R2, some T2⟩, some ⟨some R3, none⟩]
      = (R1 ++ R2 ++ R3,
         [ApiCall.query initial_payload, ApiCall.queryMore T1, ApiCall.queryMore T2]) :=
  rfl

/-- C3: if the first query succeeds with records R1 and a token and the
continuation call fails (transport error or non-2xx both break the loop),
the driver returns exactly R1, and more generally a failing continuation
call returns precisely the accumulator, never discarding prior pages. -/
theorem pagination_failure_keeps_partial (R1 : List ComponentMeta) (T : String)
    (rest : List (Option QueryResponse)) :
    get_all_components (some ⟨some R1, some T⟩) (none :: rest)
      = (R1, [ApiCall.query initial_payload, ApiCall.queryMore T])
    ∧ ∀ (acc : List ComponentMeta) (tok : String)
        (rest2 : List (Option QueryResponse)),
        (paginate (none :: rest2) (some tok) acc).1 = acc := by
  exact ⟨rfl, fun acc tok rest2 => rfl⟩

/-- C8: the first call of every driver run is the fixed initial query,
and its payload denotes exactly the JSON object printed in the spec:
the source payload and the spec payload agree once object keys are
brought into canonical order (Python dict literals are equal regardless
of key order). -/
theorem initial_query_payload :
    (∀ (first : Option QueryResponse) (rest : List (Option QueryResponse)),
        ((get_all_components first rest).2).head?
          = some (ApiCall.query initial_payload))
    ∧ Json.normTo 8 initial_payload = Json.normTo 8 spec_initial_payload := by
  constructor
  · intro first rest
    cases first with
    | none => rfl
    | some resp =>
        cases resp with
        | mk res tok =>
            cases res with
            | none => rfl
            | some recs => rfl
  · rfl

/-! ## Walker helper lemmas -/

theorem export_walker_cons_ok (m : ComponentMeta) (env : RecordEnv)
    (rest : List (ComponentMeta × RecordEnv)) (o : ExportOutcome)
    (h : export_record m env = .ok o) :
    export_walker ((m, env) :: rest) = (export_walker rest).map (fun l => o :: l) := by
  simp only [export_walker, h]
  cases hw : export_walker rest with
  | error e => simp [Except.map]
  | ok os => simp [Except.map]

theorem sanitize_name_dyn_none : sanitize_name_dyn none = .error "TypeError" := rfl

theorem export_walker_cons_error (m : ComponentMeta) (env : RecordEnv)
    (rest : List (ComponentMeta × RecordEnv)) (e : String)
    (h : export_record m env = .error e) :
    export_walker ((m, env) :: rest) = .error e := by
  simp only [export_walker, h]

/-! ## C6: record-level failures never abort the run -/

/-- C6: a record whose componentId is missing yields the skip outcome,
which writes no file, and the walker then processes the remaining
records exactly as it would on its own; more generally after any
record-level outcome (skip, directory failure, fetch failure, write
failure, or a successful write) the remaining records are processed in
order. -/
theorem walker_skip_continues (m : ComponentMeta) (env : RecordEnv)
    (rest : List (ComponentMeta × RecordEnv)) (o : ExportOutcome)
    (h : export_record m env = .ok o)
    (m2 : ComponentMeta) (env2 : RecordEnv)
    (rest2 : List (ComponentMeta × RecordEnv))
    (h2 : m2.componentId = none) :
    export_walker ((m, env) :: rest) = (export_walker rest).map (fun l => o :: l)
    ∧ export_record m2 env2 = .ok .skippedNoId
    ∧ writesOf .skippedNoId = []
    ∧ export_walker ((m2, env2) :: rest2)
        = (export_walker rest2).map (fun l => ExportOutcome.skippedNoId :: l) := by
  have h2' : export_record m2 env2 = .ok .skippedNoId := by
    simp only [export_record, h2]
  exact ⟨export_walker_cons_ok m env rest o h, h2', rfl,
    export_walker_cons_ok m2 env2 rest2 _ h2'⟩

/-- C6 witness: a concrete record with no componentId is skipped, writes
nothing, and the walker continues. -/
theorem walker_skip_continues_witness :
    export_walker [(⟨none, none, none, none, none⟩, ⟨true, some "x", true⟩)]
      = (export_walker []).map (fun l => ExportOutcome.skippedNoId :: l)
    ∧ export_record ⟨none, none, none, none, none⟩ ⟨true, some "x", true⟩
      = .ok .skippedNoId
    ∧ writesOf .skippedNoId = []
    ∧ export_walker [(⟨none, none, none, none, none⟩, ⟨true, some "x", true⟩)]
      = (export_walker []).map (fun l => ExportOutcome.skippedNoId :: l) :=
  walker_skip_continues ⟨none, none, none, none, none⟩ ⟨true, some "x", true⟩ []
    .skippedNoId rfl ⟨none, none, none, none, none⟩ ⟨true, some "x", true⟩ [] rfl

/-! ## C7: missing or empty credentials abort the run -/

/-- C7: if any of the three credentials is missing from the environment
or is the empty string, the run ends in the missing-environment abort
with an empty query-call trace: the pagination driver and the walker
never run, so no network call is made. -/
theorem missing_env_aborts (e : EnvVars) (first : Option QueryResponse)
    (rest : List (Option QueryResponse)) (envs : List RecordEnv)
    (h : e.BOOMI_ACCOUNT_ID = none ∨ e.BOOMI_ACCOUNT_ID = some ""
       ∨ e.BOOMI_USERNAME = none ∨ e.BOOMI_USERNAME = some ""
       ∨ e.BOOMI_API_TOKEN = none ∨ e.BOOMI_API_TOKEN = some "") :
    main_run e first rest envs = (.abortedMissingEnv, []) := by
  have hko : credentials_ok e = false := by
    rcases h with h | h | h | h | h | h <;> simp [credentials_ok, truthy, h]
  simp [main_run, hko]

/-- C7 witness: a run with a missing account id and an empty api token
aborts with no calls. -/
theorem missing_env_aborts_witness :
    main_run ⟨none, some "u", some ""⟩ none [] [] = (.abortedMissingEnv, []) :=
  missing_env_aborts ⟨none, some "u", some ""⟩ none [] [] (Or.inl rfl)

/-! ## C9: null values reaching sanitize_name -/

/-- C9 counterexample: the claim says every record whose folderName key
holds a null aborts the run, but a record with a null folderName and no
componentId is skipped at the id check before sanitize_name runs, and
the walker carries on: the run ends normally. -/
theorem null_folder_no_id_skipped :
    (ComponentMeta.mk none none none none (some none)).folderName = some none
    ∧ export_walker [(⟨none, none, none, none, some none⟩, ⟨true, some "x", true⟩)]
        = .ok [ExportOutcome.skippedNoId] :=
  ⟨rfl, rfl⟩

/-- C9 amended: sanitize_name raises a TypeError on a non-string, and a
record whose folderName or name key holds a null value aborts the whole
run exactly when the record reaches the corresponding sanitize_name
call: a null folderName aborts whenever the componentId is present and
non-empty; a null name aborts when additionally the folder sanitizes,
directory creation succeeds, and the fetch returns non-empty content.
Records dismissed earlier (missing id, failed or empty fetch) do not
raise and the run continues. -/
theorem null_value_aborts (m : ComponentMeta) (env : RecordEnv)
    (rest : List (ComponentMeta × RecordEnv)) (cid : String)
    (hid : m.componentId = some cid) (hne : cid ≠ "")
    (hnull : m.folderName = some none
      ∨ (m.name = some none ∧ env.mkdirOk = true
         ∧ (∃ f, sanitize_name_dyn (m.folderName.getD (some "No Folder")) = .ok f)
         ∧ ∃ xml, env.fetchResult = some xml ∧ xml ≠ "")) :
    sanitize_name_dyn none = .error "TypeError"
    ∧ export_record m env = .error "TypeError"
    ∧ export_walker ((m, env) :: rest) = .error "TypeError" := by
  have herr : export_record m env = .error "TypeError" := by
    rcases hnull with hfold | ⟨hname, hmk, ⟨f, hf⟩, ⟨xml, hx, hxe⟩⟩
    · simp [export_record, hid, hne, hfold, sanitize_name_dyn_none]
    · simp [export_record, hid, hne, hf, hmk, hx, hxe, hname, sanitize_name_dyn_none]
  exact ⟨rfl, herr, export_walker_cons_error m env rest _ herr⟩

/-- C9 amended witness: a record with id id1 and a null folderName
aborts the run with a TypeError. -/
theorem null_value_aborts_witness :
    sanitize_name_dyn none = .error "TypeError"
    ∧ export_record ⟨some "id1", none, some 1, none, some none⟩
        ⟨true, some "x", true⟩ = .error "TypeError"
    ∧ export_walker [(⟨some "id1", none, some 1, none, some none⟩,
        ⟨true, some "x", true⟩)] = .error "TypeError" :=
  null_value_aborts ⟨some "id1", none, some 1, none, some none⟩
    ⟨true, some "x", true⟩ [] "id1" rfl (by decide) (Or.inl rfl)

/-! ## C10: an empty fetched body counts as a fetch failure -/

/-- C10: a record that reaches the document fetch (id present and
non-empty, folder sanitizes, directory step succeeds) and gets back the
empty string is treated exactly like a failed fetch: the fetch-failure
outcome, identical to the outcome with no response at all, no file
written, and the walker continues with the remaining records in
order. -/
theorem empty_fetch_is_failure (m : ComponentMeta) (cid f : String) (w : Bool)
    (rest : List (ComponentMeta × RecordEnv))
    (hid : m.componentId = some cid) (hne : cid ≠ "")
    (hf : sanitize_name_dyn (m.folderName.getD (some "No Folder")) = .ok f) :
    export_record m ⟨true, some "", w⟩ = .ok .fetchFailed
    ∧ export_record m ⟨true, some "", w⟩ = export_record m ⟨true, none, w⟩
    ∧ writesOf .fetchFailed = []
    ∧ export_walker ((m, ⟨true, some "", w⟩) :: rest)
        = (export_walker rest).map (fun l => ExportOutcome.fetchFailed :: l) := by
  have h1 : export_record m ⟨true, some "", w⟩ = .ok .fetchFailed := by
    simp [export_record, hid, hne, hf]
  have h2 : export_record m ⟨true, none, w⟩ = .ok .fetchFailed := by
    simp [export_record, hid, hne, hf]
  exact ⟨h1, h1.trans h2.symm, rfl,
    export_walker_cons_ok m ⟨true, some "", w⟩ rest _ h1⟩

/-- C10 witness: a concrete record whose fetch returns the empty string
gets the fetch-failure outcome and the run continues. -/
theorem empty_fetch_is_failure_witness :
    export_record ⟨some "id9", some (some "A"), some 3, none, some (some "F")⟩
        ⟨true, some "", true⟩ = .ok .fetchFailed
    ∧ export_record ⟨some "id9", some (some "A"), some 3, none, some (some "F")⟩
        ⟨true, some "", true⟩
      = export_record ⟨some "id9", some (some "A"), some 3, none, some (some "F")⟩
        ⟨true, none, true⟩
    ∧ writesOf .fetchFailed = []
    ∧ export_walker [(⟨some "id9", some (some "A"), some 3, none, some (some "F")⟩,
        ⟨true, some "", true⟩)]
      = (export_walker []).map (fun l => ExportOutcome.fetchFailed :: l) :=
  empty_fetch_is_failure ⟨some "id9", some (some "A"), some 3, none, some (some "F")⟩
    "id9" (sanitize_name "F") true [] rfl (by decide) rfl
